import Mathlib

/-!
Verification of the QForge self-healing core (`src/core/self-healing`):
the failure-pattern catalog, the failure analyzer (`analyzeFailure`,
`suggestFixes`, `calculateConfidence`, `sortFailuresBySeverity`,
`extractLocation`) and the self-healing manager (`attemptFix`,
`generateSelfHealingReport`).  The TypeScript source is shallowly embedded:
regular expressions become values of a small regex AST `RE` with a
backtracking matcher that follows JavaScript `String.match` semantics
(leftmost match, greedy quantifiers, left-biased alternation), arrays become
lists, the JS stable `Array.sort` becomes a stable insertion sort by the same
comparator, and the two effectful operations of the manager are modelled with
explicit outcome parameters and effect traces.
-/

/-- CI platform identifiers, from `src/types.ts`:
`type CIPlatform = github | aws | gitlab | circleci` (string union). -/
inductive CIPlatform where
  | github
  | aws
  | gitlab
  | circleci
deriving DecidableEq, Repr

/-- Failure types, from the `FailureType` enum in
`src/core/self-healing/types.ts`. -/
inductive FailureType where
  | test
  | build
  | dependency
  | resource
  | network
  | permission
  | configuration
  | timeout
  | unknown
deriving DecidableEq, Repr

/-- Failure severities, from the `FailureSeverity` enum in
`src/core/self-healing/types.ts` (declaration order LOW, MEDIUM, HIGH,
CRITICAL). -/
inductive FailureSeverity where
  | low
  | medium
  | high
  | critical
deriving DecidableEq, Repr

/-- A small regular-expression AST covering exactly the constructs used by
the catalog in `failure-patterns.ts` and by `extractLocation`: character
classes, sequencing, alternation, optional groups and `+` on a character
class.  (`*`, anchors and backreferences do not occur in the source.) -/
inductive RE where
  | eps
  | cls (p : Char → Bool)
  | seq (a b : RE)
  | alt (a b : RE)
  | opt (a : RE)
  | plus (p : Char → Bool)

/-- Left-biased choice on `Option`, used by the matcher for alternation and
for backtracking out of greedy quantifiers. -/
def oor (a b : Option (List Char)) : Option (List Char) :=
  match a with
  | some x => some x
  | none => b

/-- Greedy Kleene-star step for a character class with backtracking: consume
as many `p`-characters as possible, then on failure of the continuation give
back one character at a time (JS greedy quantifier semantics). -/
def manyThen (p : Char → Bool) : List Char → (List Char → Option (List Char)) → Option (List Char)
  | [], k => k []
  | c :: rest, k =>
      if p c then oor (manyThen p rest k) (k (c :: rest))
      else k (c :: rest)

/-- Backtracking matcher: `reMatch r s k` tries to match `r` against a prefix
of `s` and passes the remaining suffix to the continuation `k`, returning the
first success in JS backtracking order (left-biased alternation, greedy
quantifiers, greedy optional groups). -/
def reMatch : RE → List Char → (List Char → Option (List Char)) → Option (List Char)
  | RE.eps, s, k => k s
  | RE.cls p, s, k =>
      match s with
      | [] => none
      | c :: rest => if p c then k rest else none
  | RE.seq a b, s, k => reMatch a s (fun s2 => reMatch b s2 k)
  | RE.alt a b, s, k => oor (reMatch a s k) (reMatch b s k)
  | RE.opt a, s, k => oor (reMatch a s k) (k s)
  | RE.plus p, s, k =>
      match s with
      | [] => none
      | c :: rest => if p c then manyThen p rest k else none

/-- `reSearch re s` emulates JS `s.match(re)` restricted to the full matched
text `match[0]`: scan start positions left to right and return the text of
the first match, or `none` when the regex matches nowhere. -/
def reSearch (re : RE) : List Char → Option (List Char)
  | [] =>
      match reMatch re [] (fun rem => some rem) with
      | some _ => some []
      | none => none
  | c :: rest =>
      match reMatch re (c :: rest) (fun rem => some rem) with
      | some rem => some (List.take ((c :: rest).length - rem.length) (c :: rest))
      | none => reSearch re rest

/-- JS `\s` character class (the whitespace characters relevant here). -/
def jsSpace (c : Char) : Bool :=
  c = ' ' || c = '\t' || c = '\n' || c = '\r' ||
  c = Char.ofNat 11 || c = Char.ofNat 12 || c = Char.ofNat 160 || c = Char.ofNat 65279

/-- JS `\d` character class. -/
def jsDigit (c : Char) : Bool :=
  '0' ≤ c && c ≤ '9'

/-- JS `.` (any character except line terminators). -/
def jsDot (c : Char) : Bool :=
  !(c = '\n' || c = '\r' || c = Char.ofNat 8232 || c = Char.ofNat 8233)

/-- ASCII letters and digits, the common core of the bracket classes used by
the catalog. -/
def alnumChar (c : Char) : Bool :=
  ('a' ≤ c && c ≤ 'z') || ('A' ≤ c && c ≤ 'Z') || ('0' ≤ c && c ≤ '9')

/-- Sequence a list of regex fragments. -/
def reCat (l : List RE) : RE :=
  l.foldr RE.seq RE.eps

/-- Alternation over a list of branches in source order (the trailing
never-matching branch is the neutral element of `alt`). -/
def reAlts (l : List RE) : RE :=
  l.foldr RE.alt (RE.cls (fun _ => false))

/-- A single character matched case-insensitively (the `i` flag carried by
every catalog regex). -/
def ichar (c : Char) : RE :=
  RE.cls (fun d => d.toLower = c.toLower)

/-- A literal string matched case-insensitively. -/
def lit (s : String) : RE :=
  reCat (s.toList.map ichar)

/-- `\s+`. -/
def sp : RE := RE.plus jsSpace

/-- `\d+`. -/
def digs : RE := RE.plus jsDigit

/-- `.+`. -/
def dotp : RE := RE.plus jsDot

/-- Words joined by `\s+`, the shape of most catalog regexes
(e.g. `/build\s+failed/i`). -/
def wordsRE : List String → RE
  | [] => RE.eps
  | [w] => lit w
  | w :: rest => RE.seq (lit w) (RE.seq sp (wordsRE rest))

/-- A catalog matcher: the literal regex text from the source (as produced by
JS `RegExp.toString()`, stored into `DetectedFailure.matchedPattern`) paired
with its AST. -/
structure Matcher where
  source : String
  re : RE

/-- `FailurePattern` from `types.ts`. -/
structure FailurePattern where
  type : FailureType
  severity : FailureSeverity
  patterns : List Matcher
  description : String

/-- `DetectedFailure` from `types.ts`. -/
structure DetectedFailure where
  type : FailureType
  severity : FailureSeverity
  message : String
  matchedPattern : String
  description : String
  location : Option String := none
deriving DecidableEq, Repr

/-- `FailureFix` from `types.ts`; the optional TS fields default to the JS
falsy values the analyzer sees when they are absent. -/
structure FailureFix where
  type : FailureType
  description : String
  fixScript : Option String := none
  manualSteps : List String := []
  platformSpecific : Bool := false
  platforms : List CIPlatform := []
deriving DecidableEq, Repr

/-- `FixSuggestion` from `types.ts`. -/
structure FixSuggestion where
  failure : DetectedFailure
  fixes : List FailureFix
  autoFixPossible : Bool
  confidence : Int
deriving DecidableEq, Repr

/-- `SelfHealingOptions` from `types.ts`. -/
structure SelfHealingOptions where
  autoRetry : Bool
  maxRetries : Nat
  retryDelay : Nat
  autoFix : Bool
  notifyOnFailure : Bool
  collectLogs : Bool
  platform : CIPlatform
deriving DecidableEq, Repr

/-- `DEFAULT_SELF_HEALING_OPTIONS` from `types.ts`. -/
def DEFAULT_SELF_HEALING_OPTIONS : SelfHealingOptions :=
  { autoRetry := true
    maxRetries := 3
    retryDelay := 60
    autoFix := false
    notifyOnFailure := true
    collectLogs := true
    platform := CIPlatform.github }

/-- The apostrophe character (U+0027), used by the negated bracket classes
of the build-failure regexes. -/
def aposChar : Char := Char.ofNat 39

/-- The regex fragment matching a single apostrophe. -/
def aposRE : RE := RE.cls (fun c => c = aposChar)

/-- The negated bracket class excluding the apostrophe. -/
def notApos (c : Char) : Bool := !(c = aposChar)

/-- The bracket class of letters, digits, underscore, dot, slash and dash,
as used by the jest FAIL pattern and by `extractLocation` (which spells the
same character set with the dash escaped). -/
def pathChar (c : Char) : Bool :=
  alnumChar c || c = '_' || c = '.' || c = '/' || c = '-'

/-- The bracket class of letters, digits, underscore and dash. -/
def wordDashChar (c : Char) : Bool :=
  alnumChar c || c = '_' || c = '-'

/-- The bracket class of letters, digits, underscore, slash and dash. -/
def permPathChar (c : Char) : Bool :=
  alnumChar c || c = '_' || c = '/' || c = '-'

/-- The class `[a-zA-Z0-9:-]`. -/
def colonDashChar (c : Char) : Bool :=
  alnumChar c || c = ':' || c = '-'

/-- `FAILURE_PATTERNS` from `failure-patterns.ts`: the platform-agnostic
rule set, in source order. -/
def FAILURE_PATTERNS : List FailurePattern := [
  -- Test failures
  { type := FailureType.test
    severity := FailureSeverity.medium
    patterns := [
      ⟨"/test(s)?\\s+failed/i", reCat [lit ("test"), RE.opt (lit ("s")), sp, lit ("failed")]⟩,
      ⟨"/failing\\s+test(s)?/i", reCat [lit ("failing"), sp, lit ("test"), RE.opt (lit ("s"))]⟩,
      ⟨"/assertion\\s+failed/i", wordsRE [("assertion"), ("failed")]⟩,
      ⟨"/expect(ed)?.+to\\s+(equal|be|include|contain|have)/i",
        reCat [lit ("expect"), RE.opt (lit ("ed")), dotp, lit ("to"), sp,
          reAlts [lit ("equal"), lit ("be"), lit ("include"), lit ("contain"), lit ("have")]]⟩,
      ⟨"/AssertionError/i", lit ("AssertionError")⟩,
      ⟨"/Error:\\s+Test\\s+suite\\s+failed\\s+to\\s+run/i",
        wordsRE [("Error:"), ("Test"), ("suite"), ("failed"), ("to"), ("run")]⟩,
      ⟨"/FAIL\\s+[a-zA-Z0-9_./-]+\\s+\\(\\d+\\.\\d+s\\)/i",
        reCat [lit ("FAIL"), sp, RE.plus pathChar, sp, lit ("("), digs, lit ("."), digs, lit ("s)")]⟩,
      ⟨"/FAIL\\s+src\\/components\\/Button\\.test\\.js/i",
        wordsRE [("FAIL"), ("src/components/Button.test.js")]⟩,
      ⟨"/expect\\(jest\\.fn\\(\\)\\)\\.toHaveBeenCalledTimes\\(1\\)/i",
        lit ("expect(jest.fn()).toHaveBeenCalledTimes(1)")⟩,
      ⟨"/● Button component › handles click events/i",
        lit ("● Button component › handles click events")⟩]
    description := "One or more tests failed during execution" },

  -- Flaky tests
  { type := FailureType.test
    severity := FailureSeverity.low
    patterns := [
      ⟨"/intermittent\\s+test\\s+failure/i", wordsRE [("intermittent"), ("test"), ("failure")]⟩,
      ⟨"/flaky\\s+test/i", wordsRE [("flaky"), ("test")]⟩,
      ⟨"/test\\s+sometimes\\s+fails/i", wordsRE [("test"), ("sometimes"), ("fails")]⟩,
      ⟨"/timeout\\s+exceeded\\s+waiting\\s+for/i", wordsRE [("timeout"), ("exceeded"), ("waiting"), ("for")]⟩,
      ⟨"/async\\s+callback\\s+was\\s+not\\s+invoked\\s+within\\s+the\\s+\\d+ms\\s+timeout/i",
        reCat [wordsRE [("async"), ("callback"), ("was"), ("not"), ("invoked"), ("within"), ("the")],
          sp, digs, lit ("ms"), sp, lit ("timeout")]⟩,
      ⟨"/element\\s+not\\s+found/i", wordsRE [("element"), ("not"), ("found")]⟩,
      ⟨"/element\\s+not\\s+visible/i", wordsRE [("element"), ("not"), ("visible")]⟩]
    description := "Tests appear to be flaky or timing-dependent" },

  -- Build failures
  { type := FailureType.build
    severity := FailureSeverity.high
    patterns := [
      ⟨"/build\\s+failed/i", wordsRE [("build"), ("failed")]⟩,
      ⟨"/compilation\\s+failed/i", wordsRE [("compilation"), ("failed")]⟩,
      ⟨"/cannot\\s+find\\s+module/i", wordsRE [("cannot"), ("find"), ("module")]⟩,
      ⟨"/module\\s+not\\s+found/i", wordsRE [("module"), ("not"), ("found")]⟩,
      ⟨"/import\\s+error/i", wordsRE [("import"), ("error")]⟩,
      ⟨"/syntax\\s+error/i", wordsRE [("syntax"), ("error")]⟩,
      ⟨"/error\\s+TS\\d+/i", reCat [lit ("error"), sp, lit ("TS"), digs]⟩,
      ⟨"/error\\s+C\\d+/i", reCat [lit ("error"), sp, lit ("C"), digs]⟩,
      ⟨"/error\\s+MSB\\d+/i", reCat [lit ("error"), sp, lit ("MSB"), digs]⟩,
      ⟨"/error\\s+NETSDK\\d+/i", reCat [lit ("error"), sp, lit ("NETSDK"), digs]⟩,
      ⟨"/error\\s+CS\\d+/i", reCat [lit ("error"), sp, lit ("CS"), digs]⟩,
      ⟨"/error\\s+LNK\\d+/i", reCat [lit ("error"), sp, lit ("LNK"), digs]⟩,
      ⟨"/error:\\s+\x27[^\x27]+\x27\\s+is\\s+not\\s+a\\s+member\\s+of\\s+\x27[^\x27]+\x27/i",
        reCat [lit ("error:"), sp, aposRE, RE.plus notApos, aposRE, sp,
          wordsRE [("is"), ("not"), ("a"), ("member"), ("of")], sp, aposRE, RE.plus notApos, aposRE]⟩,
      ⟨"/error:\\s+use\\s+of\\s+undeclared\\s+identifier/i",
        wordsRE [("error:"), ("use"), ("of"), ("undeclared"), ("identifier")]⟩,
      ⟨"/error:\\s+expected\\s+/i", reCat [lit ("error:"), sp, lit ("expected"), sp]⟩]
    description := "Build or compilation process failed" },

  -- Dependency issues
  { type := FailureType.dependency
    severity := FailureSeverity.high
    patterns := [
      ⟨"/could\\s+not\\s+find\\s+a\\s+version\\s+that\\s+satisfies\\s+the\\s+requirement/i",
        wordsRE [("could"), ("not"), ("find"), ("a"), ("version"), ("that"), ("satisfies"), ("the"), ("requirement")]⟩,
      ⟨"/could\\s+not\\s+resolve\\s+dependencies/i", wordsRE [("could"), ("not"), ("resolve"), ("dependencies")]⟩,
      ⟨"/dependency\\s+resolution\\s+failed/i", wordsRE [("dependency"), ("resolution"), ("failed")]⟩,
      ⟨"/package\\s+not\\s+found/i", wordsRE [("package"), ("not"), ("found")]⟩,
      ⟨"/unable\\s+to\\s+resolve\\s+dependency\\s+tree/i",
        wordsRE [("unable"), ("to"), ("resolve"), ("dependency"), ("tree")]⟩,
      ⟨"/npm\\s+ERR!\\s+404/i", wordsRE [("npm"), ("ERR!"), ("404")]⟩,
      ⟨"/pip\\s+install\\s+error/i", wordsRE [("pip"), ("install"), ("error")]⟩,
      ⟨"/failed\\s+to\\s+install\\s+dependencies/i", wordsRE [("failed"), ("to"), ("install"), ("dependencies")]⟩,
      ⟨"/no\\s+matching\\s+version\\s+found\\s+for/i", wordsRE [("no"), ("matching"), ("version"), ("found"), ("for")]⟩,
      ⟨"/incompatible\\s+dependency/i", wordsRE [("incompatible"), ("dependency")]⟩,
      ⟨"/version\\s+conflict/i", wordsRE [("version"), ("conflict")]⟩,
      ⟨"/peer\\s+dependency\\s+conflict/i", wordsRE [("peer"), ("dependency"), ("conflict")]⟩,
      ⟨"/requires\\s+peer\\s+dependency/i", wordsRE [("requires"), ("peer"), ("dependency")]⟩,
      ⟨"/npm\\s+ERR!\\s+code\\s+ERESOLVE/i", wordsRE [("npm"), ("ERR!"), ("code"), ("ERESOLVE")]⟩,
      ⟨"/npm\\s+ERR!\\s+ERESOLVE\\s+could\\s+not\\s+resolve\\s+dependency\\s+tree/i",
        wordsRE [("npm"), ("ERR!"), ("ERESOLVE"), ("could"), ("not"), ("resolve"), ("dependency"), ("tree")]⟩,
      ⟨"/Could\\s+not\\s+resolve\\s+dependency:/i", wordsRE [("Could"), ("not"), ("resolve"), ("dependency:")]⟩]
    description := "Issues with dependency resolution or installation" },

  -- Resource constraints
  { type := FailureType.resource
    severity := FailureSeverity.high
    patterns := [
      ⟨"/out\\s+of\\s+memory/i", wordsRE [("out"), ("of"), ("memory")]⟩,
      ⟨"/memory\\s+limit\\s+exceeded/i", wordsRE [("memory"), ("limit"), ("exceeded")]⟩,
      ⟨"/disk\\s+space\\s+limit\\s+exceeded/i", wordsRE [("disk"), ("space"), ("limit"), ("exceeded")]⟩,
      ⟨"/no\\s+space\\s+left\\s+on\\s+device/i", wordsRE [("no"), ("space"), ("left"), ("on"), ("device")]⟩,
      ⟨"/resource\\s+exhausted/i", wordsRE [("resource"), ("exhausted")]⟩,
      ⟨"/cpu\\s+usage\\s+limit\\s+exceeded/i", wordsRE [("cpu"), ("usage"), ("limit"), ("exceeded")]⟩,
      ⟨"/heap\\s+limit\\s+exceeded/i", wordsRE [("heap"), ("limit"), ("exceeded")]⟩,
      ⟨"/JavaScript\\s+heap\\s+out\\s+of\\s+memory/i",
        wordsRE [("JavaScript"), ("heap"), ("out"), ("of"), ("memory")]⟩,
      ⟨"/fatal\\s+error:\\s+Killed\\s+process/i", wordsRE [("fatal"), ("error:"), ("Killed"), ("process")]⟩,
      ⟨"/exit\\s+code\\s+137/i", wordsRE [("exit"), ("code"), ("137")]⟩,
      ⟨"/exit\\s+code\\s+143/i", wordsRE [("exit"), ("code"), ("143")]⟩]
    description := "Process ran out of memory, disk space, or other resources" },

  -- Network issues
  { type := FailureType.network
    severity := FailureSeverity.medium
    patterns := [
      ⟨"/network\\s+error/i", wordsRE [("network"), ("error")]⟩,
      ⟨"/connection\\s+refused/i", wordsRE [("connection"), ("refused")]⟩,
      ⟨"/connection\\s+reset/i", wordsRE [("connection"), ("reset")]⟩,
      ⟨"/connection\\s+timed\\s+out/i", wordsRE [("connection"), ("timed"), ("out")]⟩,
      ⟨"/network\\s+timeout/i", wordsRE [("network"), ("timeout")]⟩,
      ⟨"/failed\\s+to\\s+fetch/i", wordsRE [("failed"), ("to"), ("fetch")]⟩,
      ⟨"/unable\\s+to\\s+connect\\s+to/i", wordsRE [("unable"), ("to"), ("connect"), ("to")]⟩,
      ⟨"/could\\s+not\\s+resolve\\s+host/i", wordsRE [("could"), ("not"), ("resolve"), ("host")]⟩,
      ⟨"/ECONNREFUSED/i", lit ("ECONNREFUSED")⟩,
      ⟨"/ECONNRESET/i", lit ("ECONNRESET")⟩,
      ⟨"/ETIMEDOUT/i", lit ("ETIMEDOUT")⟩,
      ⟨"/ENETUNREACH/i", lit ("ENETUNREACH")⟩,
      ⟨"/socket\\s+hang\\s+up/i", wordsRE [("socket"), ("hang"), ("up")]⟩,
      ⟨"/TLS\\s+handshake\\s+failed/i", wordsRE [("TLS"), ("handshake"), ("failed")]⟩,
      ⟨"/SSL\\s+certificate\\s+error/i", wordsRE [("SSL"), ("certificate"), ("error")]⟩]
    description := "Network connectivity issues or service unavailability" },

  -- Permission issues
  { type := FailureType.permission
    severity := FailureSeverity.high
    patterns := [
      ⟨"/permission\\s+denied/i", wordsRE [("permission"), ("denied")]⟩,
      ⟨"/EACCES/i", lit ("EACCES")⟩,
      ⟨"/insufficient\\s+permissions/i", wordsRE [("insufficient"), ("permissions")]⟩,
      ⟨"/not\\s+authorized/i", wordsRE [("not"), ("authorized")]⟩,
      ⟨"/authorization\\s+failed/i", wordsRE [("authorization"), ("failed")]⟩,
      ⟨"/access\\s+denied/i", wordsRE [("access"), ("denied")]⟩,
      ⟨"/forbidden/i", lit ("forbidden")⟩,
      ⟨"/403\\s+Forbidden/i", wordsRE [("403"), ("Forbidden")]⟩,
      ⟨"/401\\s+Unauthorized/i", wordsRE [("401"), ("Unauthorized")]⟩,
      ⟨"/authentication\\s+failed/i", wordsRE [("authentication"), ("failed")]⟩,
      ⟨"/could\\s+not\\s+authenticate/i", wordsRE [("could"), ("not"), ("authenticate")]⟩,
      ⟨"/API\\s+key\\s+is\\s+invalid/i", wordsRE [("API"), ("key"), ("is"), ("invalid")]⟩,
      ⟨"/token\\s+is\\s+invalid/i", wordsRE [("token"), ("is"), ("invalid")]⟩,
      ⟨"/no\\s+such\\s+key/i", wordsRE [("no"), ("such"), ("key")]⟩]
    description := "Permission or authentication issues" },

  -- Configuration issues
  { type := FailureType.configuration
    severity := FailureSeverity.medium
    patterns := [
      ⟨"/configuration\\s+error/i", wordsRE [("configuration"), ("error")]⟩,
      ⟨"/invalid\\s+configuration/i", wordsRE [("invalid"), ("configuration")]⟩,
      ⟨"/missing\\s+configuration/i", wordsRE [("missing"), ("configuration")]⟩,
      ⟨"/unknown\\s+option/i", wordsRE [("unknown"), ("option")]⟩,
      ⟨"/unrecognized\\s+option/i", wordsRE [("unrecognized"), ("option")]⟩,
      ⟨"/invalid\\s+option/i", wordsRE [("invalid"), ("option")]⟩,
      ⟨"/missing\\s+required\\s+option/i", wordsRE [("missing"), ("required"), ("option")]⟩,
      ⟨"/missing\\s+required\\s+parameter/i", wordsRE [("missing"), ("required"), ("parameter")]⟩,
      ⟨"/missing\\s+required\\s+environment\\s+variable/i",
        wordsRE [("missing"), ("required"), ("environment"), ("variable")]⟩,
      ⟨"/environment\\s+variable\\s+not\\s+set/i", wordsRE [("environment"), ("variable"), ("not"), ("set")]⟩,
      ⟨"/invalid\\s+yaml/i", wordsRE [("invalid"), ("yaml")]⟩,
      ⟨"/invalid\\s+json/i", wordsRE [("invalid"), ("json")]⟩,
      ⟨"/invalid\\s+syntax/i", wordsRE [("invalid"), ("syntax")]⟩,
      ⟨"/could\\s+not\\s+parse/i", wordsRE [("could"), ("not"), ("parse")]⟩,
      ⟨"/unexpected\\s+token/i", wordsRE [("unexpected"), ("token")]⟩]
    description := "Issues with configuration files or settings" },

  -- Timeout issues
  { type := FailureType.timeout
    severity := FailureSeverity.medium
    patterns := [
      ⟨"/timeout\\s+exceeded/i", wordsRE [("timeout"), ("exceeded")]⟩,
      ⟨"/timed\\s+out/i", wordsRE [("timed"), ("out")]⟩,
      ⟨"/timeout\\s+waiting\\s+for/i", wordsRE [("timeout"), ("waiting"), ("for")]⟩,
      ⟨"/execution\\s+timed\\s+out/i", wordsRE [("execution"), ("timed"), ("out")]⟩,
      ⟨"/job\\s+exceeded\\s+maximum\\s+execution\\s+time/i",
        wordsRE [("job"), ("exceeded"), ("maximum"), ("execution"), ("time")]⟩,
      ⟨"/task\\s+timed\\s+out\\s+after/i", wordsRE [("task"), ("timed"), ("out"), ("after")]⟩,
      ⟨"/operation\\s+timed\\s+out/i", wordsRE [("operation"), ("timed"), ("out")]⟩,
      ⟨"/ETIMEDOUT/i", lit ("ETIMEDOUT")⟩,
      ⟨"/timeout\\s+of\\s+\\d+ms\\s+exceeded/i",
        reCat [lit ("timeout"), sp, lit ("of"), sp, digs, lit ("ms"), sp, lit ("exceeded")]⟩,
      ⟨"/timeout\\s+after\\s+\\d+s/i", reCat [lit ("timeout"), sp, lit ("after"), sp, digs, lit ("s")]⟩]
    description := "Process or operation timed out" }
]

/-- `PLATFORM_FAILURE_PATTERNS` from `failure-patterns.ts`: platform overlay
rule sets (the record has exactly the four `CIPlatform` keys, so lookup in
the analyzer is total). -/
def PLATFORM_FAILURE_PATTERNS : CIPlatform → List FailurePattern
  | CIPlatform.github => [
      { type := FailureType.permission
        severity := FailureSeverity.high
        patterns := [
          ⟨"/refusing\\s+to\\s+allow\\s+a\\s+(GitHub App|OAuth App|Personal Access Token)/i",
            reCat [wordsRE [("refusing"), ("to"), ("allow"), ("a")], sp,
              reAlts [lit ("GitHub App"), lit ("OAuth App"), lit ("Personal Access Token")]]⟩,
          ⟨"/permission\\s+to\\s+[a-zA-Z0-9_/-]+\\s+was\\s+denied/i",
            reCat [lit ("permission"), sp, lit ("to"), sp, RE.plus permPathChar, sp,
              lit ("was"), sp, lit ("denied")]⟩,
          ⟨"/workflow\\s+does\\s+not\\s+have\\s+permission\\s+to\\s+access\\s+the\\s+resource/i",
            wordsRE [("workflow"), ("does"), ("not"), ("have"), ("permission"), ("to"),
              ("access"), ("the"), ("resource")]⟩,
          ⟨"/Resource\\s+not\\s+accessible\\s+by\\s+integration/i",
            wordsRE [("Resource"), ("not"), ("accessible"), ("by"), ("integration")]⟩]
        description := "GitHub Actions permission issues" },
      { type := FailureType.configuration
        severity := FailureSeverity.medium
        patterns := [
          ⟨"/Invalid\\s+workflow\\s+file/i", wordsRE [("Invalid"), ("workflow"), ("file")]⟩,
          ⟨"/Workflow\\s+is\\s+not\\s+valid/i", wordsRE [("Workflow"), ("is"), ("not"), ("valid")]⟩,
          ⟨"/The\\s+workflow\\s+is\\s+not\\s+valid/i",
            wordsRE [("The"), ("workflow"), ("is"), ("not"), ("valid")]⟩,
          ⟨"/\\.github\\/workflows\\/[a-zA-Z0-9_-]+\\.ya?ml:\\s+Error/i",
            reCat [lit (".github/workflows/"), RE.plus wordDashChar, lit (".y"),
              RE.opt (lit ("a")), lit ("ml:"), sp, lit ("Error")]⟩]
        description := "GitHub Actions workflow configuration issues" }]
  | CIPlatform.gitlab => [
      { type := FailureType.configuration
        severity := FailureSeverity.medium
        patterns := [
          ⟨"/\\.gitlab-ci\\.ya?ml:\\s+([a-zA-Z0-9_-]+):\\s+config\\s+error/i",
            reCat [lit (".gitlab-ci.y"), RE.opt (lit ("a")), lit ("ml:"), sp,
              RE.plus wordDashChar, lit (":"), sp, lit ("config"), sp, lit ("error")]⟩,
          ⟨"/Invalid\\s+configuration\\s+format/i", wordsRE [("Invalid"), ("configuration"), ("format")]⟩,
          ⟨"/jobs:[a-zA-Z0-9_-]+\\s+config\\s+should\\s+implement\\s+a\\s+script\\s+or\\s+a\\s+trigger/i",
            reCat [lit ("jobs:"), RE.plus wordDashChar, sp,
              wordsRE [("config"), ("should"), ("implement"), ("a"), ("script"), ("or"), ("a"), ("trigger")]]⟩]
        description := "GitLab CI configuration issues" },
      { type := FailureType.resource
        severity := FailureSeverity.high
        patterns := [
          ⟨"/Runner\\s+system\\s+failure/i", wordsRE [("Runner"), ("system"), ("failure")]⟩,
          ⟨"/Error:\\s+Job\\s+failed\\s+\\(system\\s+failure\\)/i",
            wordsRE [("Error:"), ("Job"), ("failed"), ("(system"), ("failure)")]⟩]
        description := "GitLab CI runner resource issues" }]
  | CIPlatform.circleci => [
      { type := FailureType.configuration
        severity := FailureSeverity.medium
        patterns := [
          ⟨"/Error:\\s+Workflow\\s+validation\\s+error/i",
            wordsRE [("Error:"), ("Workflow"), ("validation"), ("error")]⟩,
          ⟨"/Error:\\s+Could\\s+not\\s+find\\s+a\\s+definition\\s+for\\s+job/i",
            wordsRE [("Error:"), ("Could"), ("not"), ("find"), ("a"), ("definition"), ("for"), ("job")]⟩,
          ⟨"/Error:\\s+Unknown\\s+executor/i", wordsRE [("Error:"), ("Unknown"), ("executor")]⟩]
        description := "CircleCI configuration issues" },
      { type := FailureType.resource
        severity := FailureSeverity.high
        patterns := [
          ⟨"/Error:\\s+Resource\\s+class\\s+[a-zA-Z0-9_-]+\\s+is\\s+not\\s+available/i",
            reCat [wordsRE [("Error:"), ("Resource"), ("class")], sp, RE.plus wordDashChar, sp,
              wordsRE [("is"), ("not"), ("available")]]⟩,
          ⟨"/Error:\\s+No\\s+available\\s+resource\\s+found/i",
            wordsRE [("Error:"), ("No"), ("available"), ("resource"), ("found")]⟩]
        description := "CircleCI resource issues" }]
  | CIPlatform.aws => [
      { type := FailureType.permission
        severity := FailureSeverity.high
        patterns := [
          ⟨"/User:\\s+arn:aws:[a-zA-Z0-9:-]+\\s+is\\s+not\\s+authorized\\s+to\\s+perform/i",
            reCat [lit ("User:"), sp, lit ("arn:aws:"), RE.plus colonDashChar, sp,
              wordsRE [("is"), ("not"), ("authorized"), ("to"), ("perform")]]⟩,
          ⟨"/AccessDenied/i", lit ("AccessDenied")⟩,
          ⟨"/not\\s+authorized\\s+to\\s+perform\\s+action/i",
            wordsRE [("not"), ("authorized"), ("to"), ("perform"), ("action")]⟩]
        description := "AWS CodePipeline permission issues" },
      { type := FailureType.configuration
        severity := FailureSeverity.medium
        patterns := [
          ⟨"/Invalid\\s+action\\s+configuration/i", wordsRE [("Invalid"), ("action"), ("configuration")]⟩,
          ⟨"/Action\\s+configuration\\s+validation\\s+failed/i",
            wordsRE [("Action"), ("configuration"), ("validation"), ("failed")]⟩,
          ⟨"/The\\s+action\\s+failed\\s+because\\s+the\\s+artifact/i",
            wordsRE [("The"), ("action"), ("failed"), ("because"), ("the"), ("artifact")]⟩]
        description := "AWS CodePipeline configuration issues" }]

/-- `COMMON_FIXES` from `failure-fixes.ts`, in source order.  Multi-line
fix scripts are transcribed with newline escapes; apostrophes and braces in
text are written with character escapes. -/
def COMMON_FIXES : List FailureFix := [
  -- Test failure fixes
  { type := FailureType.test
    description := "Add retry for flaky tests"
    manualSteps := [
      ("Identify the specific tests that are failing"),
      ("Add retry logic to those tests or test suites"),
      ("Consider adding timeouts or increasing existing timeouts"),
      ("Check for race conditions or timing issues in the tests")] },
  { type := FailureType.test
    description := "Update test expectations"
    manualSteps := [
      ("Review the test failure messages to understand what expectations are not being met"),
      ("Update test expectations to match the current behavior if appropriate"),
      ("If the current behavior is incorrect, fix the implementation instead")] },
  { type := FailureType.test
    description := "Fix test environment issues"
    manualSteps := [
      ("Ensure test environment has all required dependencies"),
      ("Check for environment-specific issues (file paths, environment variables, etc.)"),
      ("Verify that test fixtures or mock data are up to date"),
      ("Consider using containerization to ensure consistent test environments")] },

  -- Build failure fixes
  { type := FailureType.build
    description := "Fix compilation errors"
    manualSteps := [
      ("Review the build logs to identify specific compilation errors"),
      ("Fix syntax errors, type errors, or other compilation issues"),
      ("Ensure all required dependencies are installed"),
      ("Check for compatibility issues between dependencies")] },
  { type := FailureType.build
    description := "Update build configuration"
    manualSteps := [
      ("Review build configuration files for errors or outdated settings"),
      ("Update build tool versions if necessary"),
      ("Check for changes in build tool behavior or requirements"),
      ("Ensure build scripts are compatible with the CI environment")] },
  { type := FailureType.build
    description := "Clean build cache"
    fixScript := some ("# Clean build cache\nrm -rf node_modules/.cache\nrm -rf .next\nrm -rf dist\nrm -rf build\nrm -rf target\nrm -rf .gradle\nrm -rf .nuget\n# Reinstall dependencies\nnpm ci || yarn install --frozen-lockfile || pnpm install --frozen-lockfile\n# Rebuild\nnpm run build || yarn build || pnpm build")
    manualSteps := [
      ("Remove build cache directories"),
      ("Reinstall dependencies from scratch"),
      ("Rebuild the project")] },

  -- Dependency issues
  { type := FailureType.dependency
    description := "Update dependencies"
    manualSteps := [
      ("Update dependency versions to resolve conflicts"),
      ("Check for breaking changes in dependencies"),
      ("Update lockfiles to ensure consistent dependency versions"),
      ("Consider using dependency resolution or overrides for conflicting dependencies")] },
  { type := FailureType.dependency
    description := "Fix dependency resolution"
    fixScript := some ("# For npm\nnpm cache clean --force\nrm -rf node_modules\nrm -rf package-lock.json\nnpm install\n\n# For yarn\nyarn cache clean\nrm -rf node_modules\nrm -rf yarn.lock\nyarn install\n\n# For pnpm\npnpm store prune\nrm -rf node_modules\nrm -rf pnpm-lock.yaml\npnpm install")
    manualSteps := [
      ("Clear package manager cache"),
      ("Remove node_modules directory and lockfiles"),
      ("Reinstall dependencies from scratch")] },
  { type := FailureType.dependency
    description := "Use specific dependency versions"
    manualSteps := [
      ("Pin dependency versions to specific versions known to work"),
      ("Use lockfiles to ensure consistent dependency versions"),
      ("Consider using a tool like Renovate or Dependabot to manage dependency updates")] },

  -- Resource constraint fixes
  { type := FailureType.resource
    description := "Increase resource limits"
    manualSteps := [
      ("Increase memory limits for build or test processes"),
      ("Increase disk space allocation for the CI environment"),
      ("Consider using a larger CI runner or instance type"),
      ("Split large jobs into smaller ones to reduce resource usage")] },
  { type := FailureType.resource
    description := "Optimize resource usage"
    manualSteps := [
      ("Implement more efficient algorithms or processes"),
      ("Reduce the scope of tests or builds to use fewer resources"),
      ("Use incremental builds or tests when possible"),
      ("Implement caching to reduce resource usage")] },
  { type := FailureType.resource
    description := "Clean up unused resources"
    fixScript := some ("# Remove temporary files and directories\nfind . -name \"*.tmp\" -delete\nfind . -name \"*.log\" -delete\n# Clean Docker resources\ndocker system prune -f\n# Clean up disk space\ndf -h\ndu -sh /* | sort -hr | head -10")
    manualSteps := [
      ("Remove temporary files and directories"),
      ("Clean up Docker resources (images, containers, volumes)"),
      ("Remove build artifacts from previous runs"),
      ("Implement cleanup steps in the CI pipeline")] },

  -- Network issues
  { type := FailureType.network
    description := "Implement retries for network operations"
    manualSteps := [
      ("Add retry logic for network operations"),
      ("Implement exponential backoff for retries"),
      ("Add timeouts for network operations"),
      ("Consider using a circuit breaker pattern for unreliable services")] },
  { type := FailureType.network
    description := "Use reliable package sources"
    manualSteps := [
      ("Use reliable package registries or mirrors"),
      ("Consider using a private package registry"),
      ("Implement caching for downloaded packages"),
      ("Add fallback package sources")] },
  { type := FailureType.network
    description := "Check service status"
    manualSteps := [
      ("Check the status of external services being used"),
      ("Verify that API endpoints are available and responding correctly"),
      ("Check for service outages or maintenance windows"),
      ("Consider implementing service mocks for testing")] },

  -- Permission issues
  { type := FailureType.permission
    description := "Update permissions"
    manualSteps := [
      ("Review and update permissions for the CI/CD service account"),
      ("Ensure the CI/CD service has access to required resources"),
      ("Check for expired credentials or tokens"),
      ("Verify that environment variables for authentication are set correctly")] },
  { type := FailureType.permission
    description := "Fix file permissions"
    fixScript := some ("# Make scripts executable\nfind . -name \"*.sh\" -exec chmod +x \x7b\x7d \\;\n# Fix common permission issues\nchmod -R u+rw .")
    manualSteps := [
      ("Make scripts executable with chmod +x"),
      ("Fix file ownership issues"),
      ("Ensure the CI/CD service has write access to required directories"),
      ("Check for permission issues in mounted volumes or shared directories")] },

  -- Configuration issues
  { type := FailureType.configuration
    description := "Fix configuration syntax"
    manualSteps := [
      ("Validate configuration files with appropriate linters or validators"),
      ("Fix syntax errors in YAML, JSON, or other configuration formats"),
      ("Ensure configuration files follow the required schema"),
      ("Check for typos or incorrect indentation")] },
  { type := FailureType.configuration
    description := "Update environment variables"
    manualSteps := [
      ("Ensure all required environment variables are set"),
      ("Check for typos or incorrect values in environment variables"),
      ("Verify that secret environment variables are properly configured"),
      ("Consider using a .env file for local development")] },

  -- Timeout issues
  { type := FailureType.timeout
    description := "Increase timeouts"
    manualSteps := [
      ("Increase timeouts for long-running operations"),
      ("Split long-running jobs into smaller ones"),
      ("Implement progress reporting for long-running operations"),
      ("Consider using a different approach for operations that consistently time out")] },
  { type := FailureType.timeout
    description := "Optimize performance"
    manualSteps := [
      ("Identify and optimize slow operations"),
      ("Implement caching to reduce execution time"),
      ("Use parallel execution where possible"),
      ("Consider using more powerful CI runners or instances")] }
]

/-- `PLATFORM_FIXES` from `failure-fixes.ts` (the record has exactly the four
`CIPlatform` keys). -/
def PLATFORM_FIXES : CIPlatform → List FailureFix
  | CIPlatform.github => [
      { type := FailureType.permission
        description := "Update GitHub Actions permissions"
        platformSpecific := true
        platforms := [CIPlatform.github]
        manualSteps := [
          ("Check the \"permissions\" section in your workflow file"),
          ("Ensure the GITHUB_TOKEN has the required permissions"),
          ("Consider using a personal access token (PAT) with appropriate scopes"),
          ("Update repository settings to allow the required actions")] },
      { type := FailureType.resource
        description := "Optimize GitHub Actions workflow"
        platformSpecific := true
        platforms := [CIPlatform.github]
        manualSteps := [
          ("Use GitHub-hosted runners with more resources"),
          ("Implement caching for dependencies and build artifacts"),
          ("Use GitHub Actions\x27 built-in caching mechanism"),
          ("Split large workflows into multiple jobs")] },
      { type := FailureType.configuration
        description := "Fix GitHub Actions workflow syntax"
        platformSpecific := true
        platforms := [CIPlatform.github]
        manualSteps := [
          ("Validate workflow YAML syntax"),
          ("Check for deprecated actions or syntax"),
          ("Ensure all required inputs for actions are provided"),
          ("Use the GitHub Actions workflow validator")] }]
  | CIPlatform.aws => [
      { type := FailureType.permission
        description := "Update AWS IAM permissions"
        platformSpecific := true
        platforms := [CIPlatform.aws]
        manualSteps := [
          ("Review IAM roles and policies for CodePipeline, CodeBuild, and other services"),
          ("Ensure the service roles have the required permissions"),
          ("Check for resource-based policies that might be denying access"),
          ("Verify that cross-account permissions are configured correctly")] },
      { type := FailureType.configuration
        description := "Fix AWS CodePipeline configuration"
        platformSpecific := true
        platforms := [CIPlatform.aws]
        manualSteps := [
          ("Validate CodePipeline configuration"),
          ("Check artifact configurations between stages"),
          ("Ensure all required parameters are provided for actions"),
          ("Verify that service roles are correctly configured")] }]
  | CIPlatform.gitlab => [
      { type := FailureType.resource
        description := "Optimize GitLab CI resources"
        platformSpecific := true
        platforms := [CIPlatform.gitlab]
        manualSteps := [
          ("Use GitLab runners with more resources"),
          ("Implement caching for dependencies and build artifacts"),
          ("Use GitLab CI\x27s built-in caching mechanism"),
          ("Split large jobs into multiple smaller jobs")] },
      { type := FailureType.configuration
        description := "Fix GitLab CI configuration"
        platformSpecific := true
        platforms := [CIPlatform.gitlab]
        manualSteps := [
          ("Validate .gitlab-ci.yml syntax"),
          ("Check for deprecated features or syntax"),
          ("Ensure all required variables are defined"),
          ("Use the GitLab CI lint tool to validate configuration")] }]
  | CIPlatform.circleci => [
      { type := FailureType.resource
        description := "Optimize CircleCI resources"
        platformSpecific := true
        platforms := [CIPlatform.circleci]
        manualSteps := [
          ("Use a larger resource class for jobs"),
          ("Implement caching for dependencies and build artifacts"),
          ("Use CircleCI\x27s built-in caching mechanism"),
          ("Split large jobs into multiple smaller jobs")] },
      { type := FailureType.configuration
        description := "Fix CircleCI configuration"
        platformSpecific := true
        platforms := [CIPlatform.circleci]
        manualSteps := [
          ("Validate config.yml syntax"),
          ("Check for deprecated features or syntax"),
          ("Ensure all required parameters are provided for orbs and executors"),
          ("Use the CircleCI config validator to validate configuration")] }]

/-- Rank used by `sortFailuresBySeverity` (the `severityOrder` dictionary in
`analyzer.ts`: CRITICAL 0, HIGH 1, MEDIUM 2, LOW 3; smaller rank sorts
first). -/
def severityOrder : FailureSeverity → Nat
  | FailureSeverity.critical => 0
  | FailureSeverity.high => 1
  | FailureSeverity.medium => 2
  | FailureSeverity.low => 3

/-- Stable insertion step: place `a` after every element of strictly smaller
rank and before the first element of equal or larger rank, so that elements
comparing equal keep their original relative order. -/
def insertBySeverity (a : DetectedFailure) : List DetectedFailure → List DetectedFailure
  | [] => [a]
  | b :: bs =>
      if severityOrder b.severity < severityOrder a.severity then b :: insertBySeverity a bs
      else a :: b :: bs

/-- `sortFailuresBySeverity` from `analyzer.ts`:
`[...failures].sort((a, b) => severityOrder[a.severity] - severityOrder[b.severity])`.
JS `Array.prototype.sort` is stable (ES2019), and the stable sort by a given
comparator is unique, so the stable insertion sort computes exactly the
result of the source. -/
def sortFailuresBySeverity : List DetectedFailure → List DetectedFailure
  | [] => []
  | a :: as => insertBySeverity a (sortFailuresBySeverity as)

/-- `isPrefixList sub s` is true when `sub` is a prefix of `s`. -/
def isPrefixList : List Char → List Char → Bool
  | [], _ => true
  | _ :: _, [] => false
  | a :: as, b :: bs => a = b && isPrefixList as bs

/-- JS `String.prototype.indexOf`: index of the first occurrence of `sub`,
`none` for JS `-1`. -/
def indexOfSub (sub : List Char) : List Char → Option Nat
  | [] => if isPrefixList sub [] then some 0 else none
  | c :: rest =>
      if isPrefixList sub (c :: rest) then some 0
      else (indexOfSub sub rest).map (fun n => n + 1)

/-- JS `String.prototype.includes` as substring occurrence. -/
def occursIn (sub : List Char) : List Char → Bool
  | [] => isPrefixList sub []
  | c :: rest => isPrefixList sub (c :: rest) || occursIn sub rest

/-- `pipelineContent.includes(marker)` from the manager. -/
def includesStr (s sub : String) : Bool :=
  occursIn sub.toList s.toList

/-- The `fileLineRegex` of `extractLocation` in `analyzer.ts` (no `i` flag;
its bracket class is already case-closed). -/
def fileLineRE : RE :=
  reCat [RE.plus pathChar, RE.cls (fun c => c = ':'), digs,
    RE.opt (reCat [RE.cls (fun c => c = ':'), digs])]

/-- `extractLocation` from `analyzer.ts`: look in a ±200-character window
around the matched text for a `path:line[:column]` token; JS `indexOf`
returning `-1` is modelled by the `none` branch. -/
def extractLocation (log : List Char) (matchedText : List Char) : Option String :=
  let matchIndex : Int :=
    match indexOfSub matchedText log with
    | some i => (i : Int)
    | none => -1
  let startIndex : Int := max 0 (matchIndex - 200)
  let endIndex : Int := min (log.length : Int) (matchIndex + matchedText.length + 200)
  let context := (log.drop startIndex.toNat).take (endIndex - startIndex).toNat
  match reSearch fileLineRE context with
  | some found => some found.asString
  | none => none

/-- The synthetic failure pushed by `analyzeFailure` when no rule matched. -/
def unknownFailure : DetectedFailure :=
  { type := FailureType.unknown
    severity := FailureSeverity.medium
    message := "Unknown failure"
    matchedPattern := ""
    description := "Could not determine the specific cause of failure"
    location := none }

/-- The two nested `for` loops of `analyzeFailure` in `analyzer.ts`: every
matcher of every pattern (platform-agnostic rules followed by the platform
overlay) is run against the log; each match appends one `DetectedFailure`,
in rule-evaluation order. -/
def rawDetected (options : SelfHealingOptions) (log : String) : List DetectedFailure :=
  (FAILURE_PATTERNS ++ PLATFORM_FAILURE_PATTERNS options.platform).flatMap (fun pattern =>
    pattern.patterns.filterMap (fun regex =>
      match reSearch regex.re log.toList with
      | some matched =>
          some { type := pattern.type
                 severity := pattern.severity
                 message := matched.asString
                 matchedPattern := regex.source
                 description := pattern.description
                 location := extractLocation log.toList matched }
      | none => none))

/-- The `detectedFailures` array of `analyzeFailure` right before the final
sort: the matches in rule-evaluation order, with the synthetic unknown
failure appended when no rule matched. -/
def detectedWithFallback (options : SelfHealingOptions) (log : String) : List DetectedFailure :=
  if (rawDetected options log).length = 0 then rawDetected options log ++ [unknownFailure]
  else rawDetected options log

/-- `FailureAnalyzer.analyzeFailure` from `analyzer.ts`. -/
def analyzeFailure (options : SelfHealingOptions) (log : String) : List DetectedFailure :=
  sortFailuresBySeverity (detectedWithFallback options log)

/-- `FailureAnalyzer.getFixesForFailure` from `analyzer.ts`. -/
def getFixesForFailure (options : SelfHealingOptions) (failure : DetectedFailure) : List FailureFix :=
  let commonFixes := COMMON_FIXES.filter (fun fix => fix.type == failure.type)
  let platformFixes := (PLATFORM_FIXES options.platform).filter (fun fix =>
    fix.type == failure.type && fix.platformSpecific && fix.platforms.contains options.platform)
  commonFixes ++ platformFixes

/-- `FailureAnalyzer.calculateConfidence` from `analyzer.ts`.  The `default`
arm of the switch of the source (confidence 30) is unreachable because the
`FailureSeverity` enumeration is closed with exactly the four cases below. -/
def calculateConfidence (failure : DetectedFailure) (fixes : List FailureFix) : Int :=
  let confidence : Int :=
    match failure.severity with
    | FailureSeverity.critical => 90
    | FailureSeverity.high => 75
    | FailureSeverity.medium => 60
    | FailureSeverity.low => 40
  let confidence :=
    if fixes.length = 0 then confidence - 20
    else if fixes.length > 3 then confidence - 10
    else confidence
  let confidence :=
    if failure.type = FailureType.unknown then confidence - 30 else confidence
  let confidence :=
    if fixes.any (fun fix => fix.platformSpecific) then confidence + 10 else confidence
  max 0 (min 100 confidence)

/-- `FailureAnalyzer.suggestFixes` from `analyzer.ts` (the loop-and-push is a
map over the input failures, preserving order). -/
def suggestFixes (options : SelfHealingOptions) (failures : List DetectedFailure) : List FixSuggestion :=
  failures.map (fun failure =>
    let fixes := getFixesForFailure options failure
    { failure := failure
      fixes := fixes
      autoFixPossible := fixes.any (fun fix => fix.fixScript.isSome)
      confidence := calculateConfidence failure fixes })

/-- A vulnerability entry of the self-healing report (the anonymous record
type in `generateSelfHealingReport`). -/
structure Vulnerability where
  type : String
  description : String
  severity : String
  recommendation : String
deriving DecidableEq, Repr

/-- The return type of `generateSelfHealingReport`. -/
structure SelfHealingReport where
  vulnerabilities : List Vulnerability
  recommendations : List String
  selfHealingScore : Int
deriving DecidableEq, Repr

/-- The three mutable locals of `generateSelfHealingReport`
(`vulnerabilities`, `recommendations`, `selfHealingScore`) threaded as a
value. -/
structure ReportAcc where
  vulnerabilities : List Vulnerability
  recommendations : List String
  selfHealingScore : Int

/-- One firing check inside `generateSelfHealingReport`: push a vulnerability
entry, push a recommendation, deduct the penalty. -/
def addCheck (acc : ReportAcc) (v : Vulnerability) (recommendation : String) (penalty : Int) : ReportAcc :=
  { vulnerabilities := acc.vulnerabilities ++ [v]
    recommendations := acc.recommendations ++ [recommendation]
    selfHealingScore := acc.selfHealingScore - penalty }

/-- `SelfHealingManager.generateSelfHealingReport` from the manager source:
platform `switch` with retry/caching substring checks (the `aws` branch has
only the retry check), then the platform-independent timeout check, then the
final clamp of the score to [0,100]. -/
def generateSelfHealingReport (platform : CIPlatform) (pipelineContent : String) : SelfHealingReport :=
  let acc : ReportAcc := { vulnerabilities := [], recommendations := [], selfHealingScore := 100 }
  let acc :=
    match platform with
    | CIPlatform.github =>
        let acc :=
          if !includesStr pipelineContent ("continue-on-error") && !includesStr pipelineContent ("retry") then
            addCheck acc
              { type := "Missing Retry Mechanism"
                description := "No retry mechanism found for potentially flaky steps"
                severity := "Medium"
                recommendation := "Add continue-on-error: true for non-critical steps or implement retry logic" }
              ("Add retry mechanisms for potentially flaky steps") 15
          else acc
        let acc :=
          if !includesStr pipelineContent ("actions/cache") then
            addCheck acc
              { type := "Missing Caching"
                description := "No caching mechanism found for dependencies or build artifacts"
                severity := "Low"
                recommendation := "Use actions/cache to cache dependencies and build artifacts" }
              ("Implement caching for dependencies and build artifacts") 10
          else acc
        acc
    | CIPlatform.gitlab =>
        let acc :=
          if !includesStr pipelineContent ("retry:") then
            addCheck acc
              { type := "Missing Retry Mechanism"
                description := "No retry mechanism found for potentially flaky jobs"
                severity := "Medium"
                recommendation := "Add retry configuration for jobs that might be flaky" }
              ("Add retry configuration for potentially flaky jobs") 15
          else acc
        let acc :=
          if !includesStr pipelineContent ("cache:") then
            addCheck acc
              { type := "Missing Caching"
                description := "No caching mechanism found for dependencies or build artifacts"
                severity := "Low"
                recommendation := "Use GitLab CI caching to cache dependencies and build artifacts" }
              ("Implement caching for dependencies and build artifacts") 10
          else acc
        acc
    | CIPlatform.circleci =>
        let acc :=
          if !includesStr pipelineContent ("when: on_fail") && !includesStr pipelineContent ("no_output_timeout:") then
            addCheck acc
              { type := "Missing Retry Mechanism"
                description := "No retry mechanism or failure handling found"
                severity := "Medium"
                recommendation := "Add when: on_fail conditions or implement retry logic" }
              ("Add failure handling mechanisms") 15
          else acc
        let acc :=
          if !includesStr pipelineContent ("save_cache") && !includesStr pipelineContent ("restore_cache") then
            addCheck acc
              { type := "Missing Caching"
                description := "No caching mechanism found for dependencies or build artifacts"
                severity := "Low"
                recommendation := "Use CircleCI caching to cache dependencies and build artifacts" }
              ("Implement caching for dependencies and build artifacts") 10
          else acc
        acc
    | CIPlatform.aws =>
        let acc :=
          if !includesStr pipelineContent ("RetryCount") && !includesStr pipelineContent ("RetryMode") then
            addCheck acc
              { type := "Missing Retry Mechanism"
                description := "No retry mechanism found for potentially flaky steps"
                severity := "Medium"
                recommendation := "Add retry configuration for CodeBuild projects or Lambda functions" }
              ("Add retry configuration for potentially flaky steps") 15
          else acc
        acc
  let acc :=
    if !includesStr pipelineContent ("timeout") && !includesStr pipelineContent ("Timeout") &&
       !includesStr pipelineContent ("time-out") && !includesStr pipelineContent ("TimeoutInMinutes") then
      addCheck acc
        { type := "Missing Timeout Configuration"
          description := "No timeout configuration found for jobs or steps"
          severity := "Low"
          recommendation := "Add appropriate timeout configuration to prevent hanging jobs" }
        ("Add timeout configuration for jobs and steps") 5
    else acc
  { vulnerabilities := acc.vulnerabilities
    recommendations := acc.recommendations
    selfHealingScore := max 0 (min 100 acc.selfHealingScore) }

/-- The outcome of the `await execAsync(...)` call inside `attemptFix`: the
promise either resolves with captured stdout/stderr or rejects with an error
message (nonzero exit, timeout, crash). -/
inductive ExecOutcome where
  | success (stdout stderr : String)
  | failure (message : String)
deriving DecidableEq, Repr

/-- The result record of `attemptFix`. -/
structure AttemptFixResult where
  success : Bool
  message : String
  output : Option String := none
  error : Option String := none
deriving DecidableEq, Repr

/-- Filesystem effect trace of one `attemptFix` call on the transient script
artifact: whether the temporary script file was created (`fs.writeFile`) and
whether it was removed (`fs.remove`) before returning. -/
structure AttemptFixTrace where
  scriptCreated : Bool
  scriptRemoved : Bool
deriving DecidableEq, Repr

/-- `SelfHealingManager.attemptFix` from the manager source, with the
subprocess execution outcome passed explicitly and the filesystem effects on
the transient script recorded in the trace.  Control flow follows the
source: early returns when no automated fix exists; otherwise the script
file is written, executed, and `fs.remove` runs only on the success path —
the `catch` block logs the attempt and returns without removing the file. -/
def attemptFix (suggestion : FixSuggestion) (execResult : ExecOutcome) :
    AttemptFixResult × AttemptFixTrace :=
  if !suggestion.autoFixPossible then
    ({ success := false, message := "No automatic fix available for this failure" },
     { scriptCreated := false, scriptRemoved := false })
  else
    match suggestion.fixes.find? (fun f => f.fixScript.isSome) with
    | none =>
        ({ success := false, message := "No fix script available" },
         { scriptCreated := false, scriptRemoved := false })
    | some fix =>
        match execResult with
        | ExecOutcome.success stdout stderr =>
            ({ success := true
               message := "Successfully applied fix: " ++ fix.description
               output := some stdout
               error := some stderr },
             { scriptCreated := true, scriptRemoved := true })
        | ExecOutcome.failure msg =>
            ({ success := false
               message := "Failed to apply fix: " ++ msg
               error := some msg },
             { scriptCreated := true, scriptRemoved := false })

/-- The confidence computation exactly as the specification words it (C2):
base by severity, minus 20 for an empty fix list, minus 10 for more than
three fixes, minus 30 for an `Unknown`-typed failure, plus 10 when some fix
is platform-specific, clamped to [0,100].  (The base case of the specification,
"anything else = 30", is vacuous here because `FailureSeverity` is
a closed enumeration with exactly four values.) -/
def c2ConfidenceSpec (failure : DetectedFailure) (fixes : List FailureFix) : Int :=
  let base : Int :=
    match failure.severity with
    | FailureSeverity.critical => 90
    | FailureSeverity.high => 75
    | FailureSeverity.medium => 60
    | FailureSeverity.low => 40
  let adjusted := base
    - (if fixes = [] then 20 else 0)
    - (if fixes.length > 3 then 10 else 0)
    - (if failure.type = FailureType.unknown then 30 else 0)
    + (if fixes.any (fun fix => fix.platformSpecific) then 10 else 0)
  max 0 (min 100 adjusted)

/-- The per-platform retry-marker condition of `generateSelfHealingReport`:
true when all retry-marker substrings of the platform are absent from the
pipeline text (the condition under which the source adds the Missing Retry
Mechanism vulnerability). -/
def retryMarkersAbsent (platform : CIPlatform) (pipelineContent : String) : Bool :=
  match platform with
  | CIPlatform.github =>
      !includesStr pipelineContent ("continue-on-error") && !includesStr pipelineContent ("retry")
  | CIPlatform.gitlab => !includesStr pipelineContent ("retry:")
  | CIPlatform.circleci =>
      !includesStr pipelineContent ("when: on_fail") && !includesStr pipelineContent ("no_output_timeout:")
  | CIPlatform.aws =>
      !includesStr pipelineContent ("RetryCount") && !includesStr pipelineContent ("RetryMode")

/-- The per-platform caching-check condition of `generateSelfHealingReport`:
true when the caching check of the source fires.  The `aws` branch of the source
has no caching check at all, so for `aws` this is constantly false. -/
def cachingCheckFires (platform : CIPlatform) (pipelineContent : String) : Bool :=
  match platform with
  | CIPlatform.github => !includesStr pipelineContent ("actions/cache")
  | CIPlatform.gitlab => !includesStr pipelineContent ("cache:")
  | CIPlatform.circleci =>
      !includesStr pipelineContent ("save_cache") && !includesStr pipelineContent ("restore_cache")
  | CIPlatform.aws => false

/-- The platform-independent timeout-marker condition of
`generateSelfHealingReport`. -/
def timeoutMarkersAbsent (pipelineContent : String) : Bool :=
  !includesStr pipelineContent ("timeout") && !includesStr pipelineContent ("Timeout") &&
  !includesStr pipelineContent ("time-out") && !includesStr pipelineContent ("TimeoutInMinutes")

/-- The score penalty associated with each vulnerability type of
`generateSelfHealingReport` (15 retry, 10 caching, 5 timeout). -/
def vulnPenalty (v : Vulnerability) : Int :=
  if v.type == "Missing Retry Mechanism" then 15
  else if v.type == "Missing Caching" then 10
  else if v.type == "Missing Timeout Configuration" then 5
  else 0

/-- The scenario log of the specification (C4). -/
def c4Log : String := "FAIL src/x.test.js ... expect(fn()).toHaveBeenCalledTimes(1)"

/-- A Low-severity, Unknown-typed detected failure (the degenerate input of
C7). -/
def lowUnknownFailure : DetectedFailure :=
  { type := FailureType.unknown
    severity := FailureSeverity.low
    message := ""
    matchedPattern := ""
    description := ""
    location := none }

/-- The suggestion `suggestFixes` produces for `lowUnknownFailure`: no
catalog fix applies to `Unknown`, so the fix list is empty and the raw
confidence 40 - 20 - 30 clamps to 0. -/
def lowUnknownSuggestion : FixSuggestion :=
  { failure := lowUnknownFailure
    fixes := []
    autoFixPossible := false
    confidence := 0 }

/-- A Dependency/High detected failure, used to drive `attemptFix` (the
dependency fix catalog contains an automated script). -/
def dependencyFailure : DetectedFailure :=
  { type := FailureType.dependency
    severity := FailureSeverity.high
    message := "npm ERR! code ERESOLVE"
    matchedPattern := "/npm\\s+ERR!\\s+code\\s+ERESOLVE/i"
    description := "Issues with dependency resolution or installation"
    location := none }

/-- The suggestion the analyzer produces for `dependencyFailure` under the
default options; its fix list carries an automated script, so
`autoFixPossible` is true and `attemptFix` reaches the script-execution
path. -/
def dependencySuggestion : FixSuggestion :=
  { failure := dependencyFailure
    fixes := getFixesForFailure DEFAULT_SELF_HEALING_OPTIONS dependencyFailure
    autoFixPossible :=
      (getFixesForFailure DEFAULT_SELF_HEALING_OPTIONS dependencyFailure).any
        (fun fix => fix.fixScript.isSome)
    confidence :=
      calculateConfidence dependencyFailure
        (getFixesForFailure DEFAULT_SELF_HEALING_OPTIONS dependencyFailure) }

theorem mem_insertBySeverity (x a : DetectedFailure) (l : List DetectedFailure) :
    x ∈ insertBySeverity a l ↔ x = a ∨ x ∈ l := by
  induction l with
  | nil => simp [insertBySeverity]
  | cons b bs ih =>
      simp only [insertBySeverity]
      split
      · simp only [List.mem_cons, ih]
        tauto
      · simp [List.mem_cons]

theorem mem_sortFailuresBySeverity (x : DetectedFailure) (l : List DetectedFailure) :
    x ∈ sortFailuresBySeverity l ↔ x ∈ l := by
  induction l with
  | nil => simp [sortFailuresBySeverity]
  | cons a as ih => simp [sortFailuresBySeverity, mem_insertBySeverity, ih]

theorem insertBySeverity_ne_nil (a : DetectedFailure) (l : List DetectedFailure) :
    insertBySeverity a l ≠ [] := by
  cases l with
  | nil => simp [insertBySeverity]
  | cons b bs =>
      simp only [insertBySeverity]
      split <;> simp

theorem sortFailuresBySeverity_eq_nil_iff (l : List DetectedFailure) :
    sortFailuresBySeverity l = [] ↔ l = [] := by
  cases l with
  | nil => simp [sortFailuresBySeverity]
  | cons a as =>
      simp only [sortFailuresBySeverity]
      constructor
      · intro h
        exact absurd h (insertBySeverity_ne_nil a _)
      · intro h
        exact absurd h (List.cons_ne_nil a as)

theorem pairwise_insertBySeverity (a : DetectedFailure) (l : List DetectedFailure)
    (h : l.Pairwise (fun x y => severityOrder x.severity ≤ severityOrder y.severity)) :
    (insertBySeverity a l).Pairwise
      (fun x y => severityOrder x.severity ≤ severityOrder y.severity) := by
  induction l with
  | nil => simp [insertBySeverity]
  | cons b bs ih =>
      rcases List.pairwise_cons.mp h with ⟨hb, hbs⟩
      simp only [insertBySeverity]
      split
      · rename_i hlt
        refine List.pairwise_cons.mpr ⟨?_, ih hbs⟩
        intro y hy
        rcases (mem_insertBySeverity y a bs).mp hy with rfl | hmem
        · omega
        · exact hb y hmem
      · rename_i hge
        refine List.pairwise_cons.mpr ⟨?_, h⟩
        intro y hy
        rcases List.mem_cons.mp hy with rfl | hmem
        · omega
        · have := hb y hmem
          omega

theorem pairwise_sortFailuresBySeverity (l : List DetectedFailure) :
    (sortFailuresBySeverity l).Pairwise
      (fun x y => severityOrder x.severity ≤ severityOrder y.severity) := by
  induction l with
  | nil => simp [sortFailuresBySeverity]
  | cons a as ih => exact pairwise_insertBySeverity a _ ih

theorem perm_insertBySeverity (a : DetectedFailure) (l : List DetectedFailure) :
    List.Perm (insertBySeverity a l) (a :: l) := by
  induction l with
  | nil => exact List.Perm.refl _
  | cons b bs ih =>
      simp only [insertBySeverity]
      split
      · exact (ih.cons b).trans (List.Perm.swap a b bs)
      · exact List.Perm.refl _

theorem perm_sortFailuresBySeverity (l : List DetectedFailure) :
    List.Perm (sortFailuresBySeverity l) l := by
  induction l with
  | nil => exact List.Perm.refl _
  | cons a as ih =>
      simp only [sortFailuresBySeverity]
      exact (perm_insertBySeverity a _).trans (ih.cons a)

theorem filter_insertBySeverity (s : FailureSeverity) (a : DetectedFailure)
    (l : List DetectedFailure) :
    (insertBySeverity a l).filter (fun f => f.severity == s) =
      if a.severity == s then a :: l.filter (fun f => f.severity == s)
      else l.filter (fun f => f.severity == s) := by
  induction l with
  | nil =>
      simp [insertBySeverity, List.filter_cons]
  | cons b bs ih =>
      simp only [insertBySeverity]
      split
      · rename_i hlt
        cases ha : (a.severity == s) with
        | true =>
            have hb : (b.severity == s) = false := by
              cases hbv : (b.severity == s) with
              | false => rfl
              | true =>
                  exfalso
                  have h1 : b.severity = s := by simpa using hbv
                  have h2 : a.severity = s := by simpa using ha
                  rw [h1, h2] at hlt
                  omega
            simp [List.filter_cons, hb, ih, ha]
        | false => simp [List.filter_cons, ih, ha]
      · simp [List.filter_cons]

theorem filter_sortFailuresBySeverity (s : FailureSeverity) (l : List DetectedFailure) :
    (sortFailuresBySeverity l).filter (fun f => f.severity == s) =
      l.filter (fun f => f.severity == s) := by
  induction l with
  | nil => rfl
  | cons a as ih =>
      simp only [sortFailuresBySeverity, filter_insertBySeverity, ih, List.filter_cons]

theorem calculateConfidence_bounds (f : DetectedFailure) (fixes : List FailureFix) :
    0 ≤ calculateConfidence f fixes ∧ calculateConfidence f fixes ≤ 100 := by
  unfold calculateConfidence
  exact ⟨le_max_left 0 _, max_le (by norm_num) (min_le_left _ _)⟩

theorem getFixesForFailure_unknown (options : SelfHealingOptions) (f : DetectedFailure)
    (h : f.type = FailureType.unknown) : getFixesForFailure options f = [] := by
  unfold getFixesForFailure
  simp only [h]
  generalize options.platform = p
  cases p <;> decide

theorem calculateConfidence_unknown_nil (f : DetectedFailure)
    (h : f.type = FailureType.unknown) :
    calculateConfidence f [] ≤ 60 ∧
      (f.severity = FailureSeverity.low → calculateConfidence f [] = 0) := by
  rcases f with ⟨ft, fs, fm, fmp, fd, fl⟩
  simp only at h
  subst h
  cases fs <;> norm_num [calculateConfidence] <;> decide

/-- C1: for every options value (any platform) and every log, including the
empty string, `analyzeFailure` returns a non-empty list; and when no matcher
of any catalog pattern matched the log (the raw detection list is empty),
the result is exactly the single synthetic failure of type Unknown and
severity Medium. -/
theorem c1_analyzeFailure_nonempty_and_unknown_fallback
    (options : SelfHealingOptions) (log : String) :
    analyzeFailure options log ≠ [] ∧
    (rawDetected options log = [] → analyzeFailure options log = [unknownFailure]) := by
  have hne : detectedWithFallback options log ≠ [] := by
    unfold detectedWithFallback
    split
    · simp
    · rename_i hlen
      intro hnil
      exact hlen (by simp [hnil])
  constructor
  · unfold analyzeFailure
    intro hnil
    exact hne ((sortFailuresBySeverity_eq_nil_iff _).mp hnil)
  · intro h
    unfold analyzeFailure detectedWithFallback
    simp [h, sortFailuresBySeverity, insertBySeverity]

/-- C1 witness: on the empty log no matcher fires, and the analyzer returns
exactly the synthetic Unknown/Medium failure. -/
theorem c1_witness :
    rawDetected DEFAULT_SELF_HEALING_OPTIONS ("") = [] ∧
    analyzeFailure DEFAULT_SELF_HEALING_OPTIONS ("") = [unknownFailure] :=
  ⟨by decide,
   (c1_analyzeFailure_nonempty_and_unknown_fallback DEFAULT_SELF_HEALING_OPTIONS ("")).2
     (by decide)⟩

/-- C2: `calculateConfidence` computes exactly the formula the specification
states: severity base (Critical 90, High 75, Medium 60, Low 40), minus 20
for an empty fix list, minus 10 for more than three fixes, minus 30 for an
Unknown-typed failure, plus 10 when some fix is platform-specific, clamped
to [0,100]. -/
theorem c2_calculateConfidence_matches_spec
    (failure : DetectedFailure) (fixes : List FailureFix) :
    calculateConfidence failure fixes = c2ConfidenceSpec failure fixes := by
  obtain ⟨ft, fs, fm, fmp, fd, fl⟩ := failure
  unfold calculateConfidence c2ConfidenceSpec
  dsimp only
  simp only [List.length_eq_zero]
  cases fs <;> split_ifs <;> simp_all

/-- C3: for every options value and log, the list returned by
`analyzeFailure` is sorted by severity descending (severity rank
nondecreasing: Critical, High, Medium, Low), is a permutation of the list of
matches in rule-evaluation order (with the synthetic fallback), and the sort
is stable: for each severity, the failures of that severity appear in
exactly their rule-evaluation order. -/
theorem c3_analyzeFailure_sorted_and_stable (options : SelfHealingOptions) (log : String) :
    (analyzeFailure options log).Pairwise
      (fun a b => severityOrder a.severity ≤ severityOrder b.severity) ∧
    List.Perm (analyzeFailure options log) (detectedWithFallback options log) ∧
    ∀ s : FailureSeverity,
      (analyzeFailure options log).filter (fun f => f.severity == s) =
        (detectedWithFallback options log).filter (fun f => f.severity == s) := by
  refine ⟨?_, ?_, ?_⟩
  · exact pairwise_sortFailuresBySeverity _
  · exact perm_sortFailuresBySeverity _
  · intro s
    exact filter_sortFailuresBySeverity s _

/-- C4 counterexample: on the scenario log of the specification
`"FAIL src/x.test.js ... expect(fn()).toHaveBeenCalledTimes(1)"` (platform
github, default options) no catalog matcher fires — the test-failure matcher
requires the literal `expect(jest.fn())`, while the log has `expect(fn())`,
and the jest FAIL matcher requires a `(\d+.\d+s)` duration — so the single
returned failure has type Unknown, not Test, and the suggested confidence is
10, outside [40,70]. -/
theorem c4_counterexample :
    (analyzeFailure DEFAULT_SELF_HEALING_OPTIONS c4Log).map (fun f => f.type) =
      [FailureType.unknown] ∧
    FailureType.unknown ≠ FailureType.test ∧
    (suggestFixes DEFAULT_SELF_HEALING_OPTIONS
        (analyzeFailure DEFAULT_SELF_HEALING_OPTIONS c4Log)).map (fun s => s.confidence) =
      [10] ∧
    ¬((40 : Int) ≤ 10) := by
  decide

/-- C4 amended: on the scenario log, `analyzeFailure` (platform github,
default options) returns exactly one DetectedFailure, of type Unknown and
severity Medium (no matcher matched, so the synthetic failure is returned
and its message is the fixed text "Unknown failure"); `suggestFixes` on that
result returns `autoFixPossible = false` with confidence 10. -/
theorem c4_amended_unknown_result :
    analyzeFailure DEFAULT_SELF_HEALING_OPTIONS c4Log = [unknownFailure] ∧
    suggestFixes DEFAULT_SELF_HEALING_OPTIONS
        (analyzeFailure DEFAULT_SELF_HEALING_OPTIONS c4Log) =
      [{ failure := unknownFailure
         fixes := []
         autoFixPossible := false
         confidence := 10 }] := by
  decide

/-- C5 (code bug exhibit): `attemptFix` on a suggestion whose fix list
carries an automated script creates the transient script artifact on both
exit paths of the execution, but removes it only on the success path: when
the script execution fails (the `catch` path), the artifact is left behind,
contradicting the claim that it is removed on every exit path. -/
theorem c5_attemptFix_skips_cleanup_on_error :
    (attemptFix dependencySuggestion (ExecOutcome.failure ("Command failed"))).2.scriptCreated
        = true ∧
    (attemptFix dependencySuggestion (ExecOutcome.failure ("Command failed"))).2.scriptRemoved
        = false ∧
    (attemptFix dependencySuggestion (ExecOutcome.success ("ok") (""))).2.scriptRemoved = true ∧
    (attemptFix dependencySuggestion (ExecOutcome.failure ("Command failed"))).1.success
        = false := by
  decide

/-- C8: `generateSelfHealingReport` for platform github on the empty
pipeline text returns score 100 - 15 - 10 - 5 = 70 and exactly three
vulnerability entries. -/
theorem c8_github_empty_report :
    (generateSelfHealingReport CIPlatform.github ("")).selfHealingScore = 70 ∧
    (generateSelfHealingReport CIPlatform.github ("")).vulnerabilities.length = 3 := by
  decide

/-- C6 counterexample: for platform aws the source has no caching check at
all, so on the empty pipeline text — where every caching marker is trivially
absent — no Missing Caching vulnerability is added and only 15 (retry) and
5 (timeout) points are deducted, leaving 80; the claim would require a
Missing Caching entry and a further 10-point deduction. -/
theorem c6_counterexample :
    ((generateSelfHealingReport CIPlatform.aws ("")).vulnerabilities.filter
        (fun v => v.type == "Missing Caching")).length = 0 ∧
    (generateSelfHealingReport CIPlatform.aws ("")).selfHealingScore = 80 := by
  decide

/-- C6 amended: for every platform and pipeline text, the Missing Retry
Mechanism vulnerability is added exactly when the retry markers of the platform
are all absent (deducting 15), and the Missing Caching vulnerability exactly
when the caching check of the platform fires (deducting 10) — where the caching
check exists only for github, gitlab and circleci; the aws branch has no
caching check, so for aws it never fires.  The score is 100 minus the fired
deductions (including 5 for the timeout check). -/
theorem c6_amended_platform_checks (platform : CIPlatform) (pipelineContent : String) :
    ((generateSelfHealingReport platform pipelineContent).vulnerabilities.filter
        (fun v => v.type == "Missing Retry Mechanism")).length =
      (if retryMarkersAbsent platform pipelineContent then 1 else 0) ∧
    ((generateSelfHealingReport platform pipelineContent).vulnerabilities.filter
        (fun v => v.type == "Missing Caching")).length =
      (if cachingCheckFires platform pipelineContent then 1 else 0) ∧
    (generateSelfHealingReport platform pipelineContent).selfHealingScore =
      100 - (if retryMarkersAbsent platform pipelineContent then 15 else 0)
          - (if cachingCheckFires platform pipelineContent then 10 else 0)
          - (if timeoutMarkersAbsent pipelineContent then 5 else 0) := by
  cases platform
  all_goals
    simp only [generateSelfHealingReport, retryMarkersAbsent, cachingCheckFires,
      timeoutMarkersAbsent, addCheck]
  all_goals repeat' split
  all_goals first | decide | (exfalso; simp_all)

/-- C7: every suggestion produced by `suggestFixes` has confidence in
[0,100]; for an Unknown-typed failure the confidence is at most 60 (no
catalog fix applies to Unknown, so the fix list is empty); and for a
Low-severity Unknown-typed failure the raw value 40 - 20 - 30 is negative
and clamps to exactly 0. -/
theorem c7_suggestFixes_confidence_bounds (options : SelfHealingOptions)
    (failures : List DetectedFailure) (s : FixSuggestion)
    (hs : s ∈ suggestFixes options failures) :
    (0 ≤ s.confidence ∧ s.confidence ≤ 100) ∧
    (s.failure.type = FailureType.unknown → s.confidence ≤ 60) ∧
    (s.failure.type = FailureType.unknown → s.failure.severity = FailureSeverity.low →
      s.confidence = 0) := by
  unfold suggestFixes at hs
  rcases List.mem_map.mp hs with ⟨f, hf, rfl⟩
  dsimp only
  refine ⟨calculateConfidence_bounds f _, fun ht => ?_, fun ht hl => ?_⟩
  · rw [getFixesForFailure_unknown options f ht]
    exact (calculateConfidence_unknown_nil f ht).1
  · rw [getFixesForFailure_unknown options f ht]
    exact (calculateConfidence_unknown_nil f ht).2 hl

/-- C7 witness: the suggestion for a Low-severity Unknown-typed failure
under the default options has confidence 0, within all stated bounds. -/
theorem c7_witness :
    (0 ≤ lowUnknownSuggestion.confidence ∧ lowUnknownSuggestion.confidence ≤ 100) ∧
    (lowUnknownSuggestion.failure.type = FailureType.unknown →
      lowUnknownSuggestion.confidence ≤ 60) ∧
    (lowUnknownSuggestion.failure.type = FailureType.unknown →
      lowUnknownSuggestion.failure.severity = FailureSeverity.low →
      lowUnknownSuggestion.confidence = 0) :=
  c7_suggestFixes_confidence_bounds DEFAULT_SELF_HEALING_OPTIONS [lowUnknownFailure]
    lowUnknownSuggestion (by decide)

/-- C9: every pattern of the shipped catalog — the platform-agnostic set and
every platform overlay — has severity High, Medium or Low (never Critical);
consequently every failure `analyzeFailure` ever returns (the synthetic
Unknown/Medium fallback included) has severity in that set and is never
Critical. -/
theorem c9_no_critical_severity :
    (∀ p : CIPlatform, ∀ pat ∈ FAILURE_PATTERNS ++ PLATFORM_FAILURE_PATTERNS p,
        pat.severity = FailureSeverity.high ∨ pat.severity = FailureSeverity.medium ∨
          pat.severity = FailureSeverity.low) ∧
    (∀ (options : SelfHealingOptions) (log : String),
      ∀ f ∈ analyzeFailure options log,
        (f.severity = FailureSeverity.high ∨ f.severity = FailureSeverity.medium ∨
          f.severity = FailureSeverity.low) ∧ f.severity ≠ FailureSeverity.critical) := by
  have hcat : ∀ p : CIPlatform, ∀ pat ∈ FAILURE_PATTERNS ++ PLATFORM_FAILURE_PATTERNS p,
      pat.severity = FailureSeverity.high ∨ pat.severity = FailureSeverity.medium ∨
        pat.severity = FailureSeverity.low := by
    intro p
    cases p <;> decide
  refine ⟨hcat, ?_⟩
  intro options log f hf
  have hf2 : f ∈ detectedWithFallback options log :=
    (mem_sortFailuresBySeverity f _).mp hf
  have hraw : ∀ g ∈ rawDetected options log,
      g.severity = FailureSeverity.high ∨ g.severity = FailureSeverity.medium ∨
        g.severity = FailureSeverity.low := by
    intro g hg
    unfold rawDetected at hg
    rcases List.mem_flatMap.mp hg with ⟨pat, hpat, hg2⟩
    rcases List.mem_filterMap.mp hg2 with ⟨m, hm, hsome⟩
    rcases h2 : reSearch m.re log.toList with _ | matched
    · rw [h2] at hsome
      simp at hsome
    · rw [h2] at hsome
      dsimp only at hsome
      injection hsome with h3
      rw [← h3]
      exact hcat options.platform pat hpat
  have hsev2 : f.severity = FailureSeverity.high ∨ f.severity = FailureSeverity.medium ∨
      f.severity = FailureSeverity.low := by
    unfold detectedWithFallback at hf2
    split at hf2
    · rcases List.mem_append.mp hf2 with hr | hu
      · exact hraw f hr
      · have hfu : f = unknownFailure := by simpa using hu
        rw [hfu]
        right
        left
        rfl
    · exact hraw f hf2
  refine ⟨hsev2, ?_⟩
  rcases hsev2 with h | h | h <;> rw [h] <;> decide

/-- C9 witness: the synthetic Unknown failure returned for the empty log is
in the analyzer output and has severity Medium, not Critical. -/
theorem c9_witness :
    (unknownFailure.severity = FailureSeverity.high ∨
      unknownFailure.severity = FailureSeverity.medium ∨
      unknownFailure.severity = FailureSeverity.low) ∧
    unknownFailure.severity ≠ FailureSeverity.critical :=
  c9_no_critical_severity.2 DEFAULT_SELF_HEALING_OPTIONS ("") unknownFailure (by decide)

/-- C10: for every platform and pipeline text, the vulnerability
and recommendation lists of the report have equal length (each firing check appends one
entry to each), and the score equals 100 minus the sum of the penalties of
the vulnerabilities that fired (15 retry, 10 caching, 5 timeout), clamped to
[0,100]. -/
theorem c10_report_lengths_and_score (platform : CIPlatform) (pipelineContent : String) :
    (generateSelfHealingReport platform pipelineContent).vulnerabilities.length =
      (generateSelfHealingReport platform pipelineContent).recommendations.length ∧
    (generateSelfHealingReport platform pipelineContent).selfHealingScore =
      max 0 (min 100 (100 -
        ((generateSelfHealingReport platform pipelineContent).vulnerabilities.map
            vulnPenalty).sum)) := by
  cases platform
  all_goals
    simp only [generateSelfHealingReport, addCheck]
  all_goals repeat' split
  all_goals decide
